import Mathlib

/-!
Verification development for the blueshift_anchor_escrow program
(src/programs/blueshift_anchor_escrow/src/instructions/{make,take,refund}.rs).

The three Anchor instructions are shallowly embedded as pure functions over
explicit account contexts.  Each instruction is split the way Anchor executes
it: the declarative account constraints run first (`validate`, producing the
accounts after any `init` / `init_if_needed` allocations), then the handler
body runs.  Failures are values of `Except EscrowError`; an `Except.error`
result models the runtime's atomic abort (a failed transaction commits no
state change at all).  Successful runs return the final account states
together with a trace of the token-level effects that were performed, so that
ordering, authorization and frame properties can be stated.

Machine integers: token amounts, lamports, seeds and bumps are `Nat`s; the
destination-side `u64` overflow check of the SPL token program is modelled
explicitly against `u64Max`.

Accounts are keyed by their role in the instruction's context.  This models
executions in which distinct roles are bound to distinct on-chain accounts;
theorems carry the corresponding distinctness hypotheses (for example
`escrow.mint_a ≠ escrow.mint_b`) where they matter.
-/

namespace BlueshiftEscrow

/-- Ledger addresses.  `ext` is an ordinary (wallet / mint / program) key.
`pda tag key seed bump` models `Pubkey::create_program_address` over the seed
list `[tag, key.as_ref(), seed.to_le_bytes(), [bump]]` — the only PDA shape
this program uses (`[b"escrow", maker, seed, bump]`).  `ata owner prog mint`
models the associated-token address of `owner` for `mint` under token program
`prog`.  Constructors are free, modelling collision-freeness of the
derivations. -/
inductive Pubkey where
  | ext : Nat → Pubkey
  | pda : String → Pubkey → Nat → Nat → Pubkey
  | ata : Pubkey → Pubkey → Pubkey → Pubkey
deriving DecidableEq, Repr

/-- Largest value representable in a `u64`. -/
def u64Max : Nat := 2 ^ 64 - 1

/-- An SPL mint account: its address, the token program that owns it, and its
decimal precision. -/
structure MintAcc where
  key : Pubkey
  owner : Pubkey
  decimals : Nat
deriving DecidableEq, Repr

/-- An SPL token account: bound mint, authority (owner) and balance. -/
structure TokenAcc where
  mint : Pubkey
  owner : Pubkey
  amount : Nat
deriving DecidableEq, Repr

/-- The Escrow record (crate::state::Escrow).  state.rs is not under src/;
the fields and their population are read off `Make::populate_escrow`
(make.rs lines 121-137), which writes exactly these six fields. -/
structure Escrow where
  seed : Nat
  maker : Pubkey
  mint_a : Pubkey
  mint_b : Pubkey
  receive : Nat
  bump : Nat
deriving DecidableEq, Repr

/-- Error kinds.  The first five are the `crate::errors::EscrowError`
variants referenced by the instruction files (errors.rs itself is not under
src/).  The rest are the Anchor constraint errors and SPL token-program
errors that the declared constraints and CPIs can raise. -/
inductive EscrowError where
  | InvalidAmount
  | InvalidMintA
  | InvalidMintB
  | InvalidMaker
  | InsufficientFunds
  | ConstraintSeeds
  | ConstraintMintTokenProgram
  | ConstraintAssociated
  | AccountAlreadyInUse
  | InsufficientLamports
  | TokenMintMismatch
  | TokenDecimalsMismatch
  | TokenOwnerMismatch
  | TokenInsufficientFunds
  | TokenOverflow
  | TokenNonNativeHasBalance
deriving DecidableEq, Repr

/-- Observable token-level effects of a successful instruction, in execution
order.  `transfer mint src dst amount auth` records a token movement and the
key that authorized it; `closeToken acct dest auth lamports` records a token
account closure sweeping its rent lamports to `dest`; `closeRecord` records
Anchor's `close = maker` on the escrow record; `createAta acct payer rent`
records an `init` / `init_if_needed` allocation paid by `payer`. -/
inductive Effect where
  | transfer : Pubkey → Pubkey → Pubkey → Nat → Pubkey → Effect
  | closeToken : Pubkey → Pubkey → Pubkey → Nat → Effect
  | closeRecord : Pubkey → Pubkey → Nat → Effect
  | createAta : Pubkey → Pubkey → Nat → Effect
deriving DecidableEq, Repr

/-- SPL token-program `transfer_checked` CPI on a (source, destination) pair:
checks mint binding of both accounts, the caller-supplied decimals against
the mint, the authority over the source, source funds, and destination
`u64` overflow, then moves `amount`. -/
def transfer_checked (src dst : TokenAcc) (mint : MintAcc) (authority : Pubkey)
    (amount decimals : Nat) : Except EscrowError (TokenAcc × TokenAcc) :=
  if src.mint ≠ mint.key then .error .TokenMintMismatch
  else if dst.mint ≠ mint.key then .error .TokenMintMismatch
  else if decimals ≠ mint.decimals then .error .TokenDecimalsMismatch
  else if authority ≠ src.owner then .error .TokenOwnerMismatch
  else if src.amount < amount then .error .TokenInsufficientFunds
  else if dst.amount + amount > u64Max then .error .TokenOverflow
  else .ok ({ src with amount := src.amount - amount },
            { dst with amount := dst.amount + amount })

/-- SPL token-program `close_account` CPI: requires the closing authority and
a zero balance, and releases the account's lamports to the destination. -/
def close_account (acct : TokenAcc) (authority : Pubkey) (lamports : Nat) :
    Except EscrowError Nat :=
  if authority ≠ acct.owner then .error .TokenOwnerMismatch
  else if acct.amount ≠ 0 then .error .TokenNonNativeHasBalance
  else .ok lamports

/-- Associated-token address of `owner` for `mint` under `prog`. -/
def ataAddr (owner prog mint : Pubkey) : Pubkey := .ata owner prog mint

/-- The escrow PDA for derivation seeds `[b"escrow", maker, seed]` and a
bump, as in `seeds = [b"escrow", maker.key().as_ref(), seed.to_le_bytes()]`. -/
def escrowPda (maker : Pubkey) (seed bump : Nat) : Pubkey :=
  .pda "escrow" maker seed bump

namespace Make

/-- Accounts context of the Make instruction (make.rs `Make<'info>`), plus
the environment data the runtime supplies: the canonical bump found for the
escrow PDA, whether the derived addresses are still unused (`init`), the
maker's lamports and the rent costs of the two allocations. -/
structure Ctx where
  maker : Pubkey
  maker_lamports : Nat
  escrow_bump : Nat
  escrow_fresh : Bool
  vault_fresh : Bool
  mint_a : MintAcc
  mint_b : MintAcc
  maker_ata_a : TokenAcc
  token_program : Pubkey
  escrow_rent : Nat
  vault_rent : Nat
deriving DecidableEq, Repr

/-- Address at which the escrow record is allocated: the PDA of
`[b"escrow", maker, seed]` with the runtime-found bump. -/
def escrowAddr (ctx : Ctx) (seed : Nat) : Pubkey :=
  escrowPda ctx.maker seed ctx.escrow_bump

/-- Address of the vault: the escrow PDA's associated token account for
`mint_a`. -/
def vaultAddr (ctx : Ctx) (seed : Nat) : Pubkey :=
  ataAddr (escrowAddr ctx seed) ctx.token_program ctx.mint_a.key

/-- Accounts after Anchor's constraint checks and `init` allocations,
before the handler body runs. -/
structure Valid where
  ctx : Ctx
  vault : TokenAcc
  maker_lamports : Nat
  trace : List Effect
deriving DecidableEq, Repr

/-- Anchor account validation for Make, in field order: escrow (`init`,
payer maker, seeds/bump), mint_a / mint_b (`mint::token_program`),
maker_ata_a (associated token of maker for mint_a), vault (`init`,
associated token of the escrow PDA for mint_a, payer maker). -/
def validate (ctx : Ctx) (seed : Nat) : Except EscrowError Valid :=
  if !ctx.escrow_fresh then .error .AccountAlreadyInUse
  else if ctx.maker_lamports < ctx.escrow_rent then .error .InsufficientLamports
  else if ctx.mint_a.owner ≠ ctx.token_program then .error .ConstraintMintTokenProgram
  else if ctx.mint_b.owner ≠ ctx.token_program then .error .ConstraintMintTokenProgram
  else if ctx.maker_ata_a.mint ≠ ctx.mint_a.key ∨ ctx.maker_ata_a.owner ≠ ctx.maker then
    .error .ConstraintAssociated
  else if !ctx.vault_fresh then .error .AccountAlreadyInUse
  else if ctx.maker_lamports - ctx.escrow_rent < ctx.vault_rent then
    .error .InsufficientLamports
  else
    .ok { ctx,
          vault := { mint := ctx.mint_a.key, owner := escrowAddr ctx seed, amount := 0 },
          maker_lamports := ctx.maker_lamports - ctx.escrow_rent - ctx.vault_rent,
          trace := [.createAta (escrowAddr ctx seed) ctx.maker ctx.escrow_rent,
                    .createAta (vaultAddr ctx seed) ctx.maker ctx.vault_rent] }

/-- Record contents written by `Make::populate_escrow` (make.rs 121-137). -/
def populate_escrow (ctx : Ctx) (seed receive bump : Nat) : Escrow :=
  { seed, maker := ctx.maker, mint_a := ctx.mint_a.key, mint_b := ctx.mint_b.key,
    receive, bump }

/-- The deposit of `Make::deposit_tokens` (make.rs 145-161): a
`transfer_checked` from maker_ata_a to the vault, authorized by the maker. -/
def deposit_tokens (v : Valid) (amount : Nat) : Except EscrowError (TokenAcc × TokenAcc) :=
  transfer_checked v.ctx.maker_ata_a v.vault v.ctx.mint_a v.ctx.maker amount
    v.ctx.mint_a.decimals

/-- Final state of a successful Make. -/
structure Result where
  escrow_addr : Pubkey
  escrow : Escrow
  vault : TokenAcc
  maker_ata_a : TokenAcc
  maker_lamports : Nat
  trace : List Effect
deriving DecidableEq, Repr

/-- Handler body of Make (make.rs 170-209): the two `require_gt!` amount
checks, the `require_keys_neq!` mint check (error `InvalidMintA`), the
advisory balance check, then `populate_escrow` and `deposit_tokens`. -/
def handler (v : Valid) (seed receive amount : Nat) : Except EscrowError Result :=
  if receive = 0 then .error .InvalidAmount
  else if amount = 0 then .error .InvalidAmount
  else if v.ctx.mint_a.key = v.ctx.mint_b.key then .error .InvalidMintA
  else if v.ctx.maker_ata_a.amount < amount then .error .InsufficientFunds
  else
    match deposit_tokens v amount with
    | .error e => .error e
    | .ok (src, dst) =>
      .ok { escrow_addr := escrowAddr v.ctx seed,
            escrow := populate_escrow v.ctx seed receive v.ctx.escrow_bump,
            vault := dst,
            maker_ata_a := src,
            maker_lamports := v.maker_lamports,
            trace := v.trace ++
              [.transfer v.ctx.mint_a.key
                (ataAddr v.ctx.maker v.ctx.token_program v.ctx.mint_a.key)
                (vaultAddr v.ctx seed) amount v.ctx.maker] }

/-- The whole Make instruction: Anchor account validation, then the handler. -/
def run (ctx : Ctx) (seed receive amount : Nat) : Except EscrowError Result :=
  match validate ctx seed with
  | .error e => .error e
  | .ok v => handler v seed receive amount

end Make

/-- Anchor `init_if_needed` on an associated token account: if the account is
absent it is allocated (rent paid by the payer) with a zero balance; if
present, its mint and authority must match the declared associated-token
constraints. -/
def initIfNeeded (acc : Option TokenAcc) (mint owner : Pubkey) (addr payer : Pubkey)
    (payerLamports rent : Nat) : Except EscrowError (TokenAcc × Nat × List Effect) :=
  match acc with
  | some a =>
    if a.mint ≠ mint ∨ a.owner ≠ owner then .error .ConstraintAssociated
    else .ok (a, payerLamports, [])
  | none =>
    if payerLamports < rent then .error .InsufficientLamports
    else .ok ({ mint, owner, amount := 0 }, payerLamports - rent,
              [.createAta addr payer rent])

namespace Take

/-- Accounts context of the Take instruction (take.rs `Take<'info>`).
`taker_ata_a` and `maker_ata_b` are `Option`s because they are
`init_if_needed` (payer = taker); the lamport fields carry the balances the
runtime sees, and `ata_rent` the rent cost of one associated-token
allocation. -/
structure Ctx where
  taker : Pubkey
  taker_lamports : Nat
  maker : Pubkey
  maker_lamports : Nat
  escrow_addr : Pubkey
  escrow_lamports : Nat
  escrow : Escrow
  mint_a : MintAcc
  mint_b : MintAcc
  vault : TokenAcc
  vault_lamports : Nat
  taker_ata_a : Option TokenAcc
  taker_ata_b : TokenAcc
  maker_ata_b : Option TokenAcc
  token_program : Pubkey
  ata_rent : Nat
deriving DecidableEq, Repr

/-- Address of the vault account: the escrow PDA's associated token account
for mint_a. -/
def vaultAddr (ctx : Ctx) : Pubkey :=
  ataAddr ctx.escrow_addr ctx.token_program ctx.mint_a.key

/-- Accounts after Anchor's constraint checks and `init_if_needed`
allocations, before the handler body runs. -/
structure Valid where
  ctx : Ctx
  taker_ata_a : TokenAcc
  maker_ata_b : TokenAcc
  taker_lamports : Nat
  trace : List Effect
deriving DecidableEq, Repr

/-- Anchor account validation for Take, in field and constraint order: the
escrow account's `seeds`/`bump` check (against the supplied maker account)
precedes its `has_one` checks (`maker @ InvalidMaker`, `mint_a @
InvalidMintA`, `mint_b @ InvalidMintB`); then the vault's associated-token
constraints, the `init_if_needed` of taker_ata_a (payer taker), the
associated-token constraints of taker_ata_b, and the `init_if_needed` of
maker_ata_b (payer taker). -/
def validate (ctx : Ctx) : Except EscrowError Valid :=
  if ctx.escrow_addr ≠ escrowPda ctx.maker ctx.escrow.seed ctx.escrow.bump then
    .error .ConstraintSeeds
  else if ctx.escrow.maker ≠ ctx.maker then .error .InvalidMaker
  else if ctx.escrow.mint_a ≠ ctx.mint_a.key then .error .InvalidMintA
  else if ctx.escrow.mint_b ≠ ctx.mint_b.key then .error .InvalidMintB
  else if ctx.vault.mint ≠ ctx.mint_a.key ∨ ctx.vault.owner ≠ ctx.escrow_addr then
    .error .ConstraintAssociated
  else
    match initIfNeeded ctx.taker_ata_a ctx.mint_a.key ctx.taker
        (ataAddr ctx.taker ctx.token_program ctx.mint_a.key) ctx.taker
        ctx.taker_lamports ctx.ata_rent with
    | .error e => .error e
    | .ok (taa, lam₁, tr₁) =>
      if ctx.taker_ata_b.mint ≠ ctx.mint_b.key ∨ ctx.taker_ata_b.owner ≠ ctx.taker then
        .error .ConstraintAssociated
      else
        match initIfNeeded ctx.maker_ata_b ctx.mint_b.key ctx.maker
            (ataAddr ctx.maker ctx.token_program ctx.mint_b.key) ctx.taker
            lam₁ ctx.ata_rent with
        | .error e => .error e
        | .ok (mab, lam₂, tr₂) =>
          .ok { ctx, taker_ata_a := taa, maker_ata_b := mab,
                taker_lamports := lam₂, trace := tr₁ ++ tr₂ }

/-- Step 1 of the handler, `Take::transfer_to_maker` (take.rs 110-126): a
`transfer_checked` of `escrow.receive` of mint_b from taker_ata_b to
maker_ata_b, authorized by the taker's own signature. -/
def transfer_to_maker (v : Valid) : Except EscrowError (TokenAcc × TokenAcc) :=
  transfer_checked v.ctx.taker_ata_b v.maker_ata_b v.ctx.mint_b v.ctx.taker
    v.ctx.escrow.receive v.ctx.mint_b.decimals

/-- The program-derived signing capability built by the handler's
`signer_seeds` (take.rs 131-136): the PDA of `[b"escrow", maker,
escrow.seed, escrow.bump]`, with `maker` the supplied maker account's key. -/
def signer_seeds (v : Valid) : Pubkey :=
  escrowPda v.ctx.maker v.ctx.escrow.seed v.ctx.escrow.bump

/-- Final state of a successful Take.  `escrow_data` is the record's content
at the moment Anchor's `close = maker` destroyed it; `vault_amount_at_close`
is the vault balance at its `close_account` call. -/
structure Result where
  taker_ata_a : TokenAcc
  taker_ata_b : TokenAcc
  maker_ata_b : TokenAcc
  vault_amount_at_close : Nat
  vault_closed : Bool
  escrow_data : Escrow
  escrow_closed : Bool
  taker_lamports : Nat
  maker_lamports : Nat
  trace : List Effect
deriving DecidableEq, Repr

/-- Handler body of Take (take.rs 172-181): `transfer_to_maker`, then
`withdraw_and_close_vault` (take.rs 129-168: vault → taker_ata_a transfer of
the vault's whole balance and `close_account` of the vault to the maker,
both signed with `signer_seeds`), then Anchor's `close = maker` on the
escrow record. -/
def handler (v : Valid) : Except EscrowError Result :=
  match transfer_to_maker v with
  | .error e => .error e
  | .ok (tab, mab) =>
    match transfer_checked v.ctx.vault v.taker_ata_a v.ctx.mint_a (signer_seeds v)
        v.ctx.vault.amount v.ctx.mint_a.decimals with
    | .error e => .error e
    | .ok (vlt, taa) =>
      match close_account vlt (signer_seeds v) v.ctx.vault_lamports with
      | .error e => .error e
      | .ok freed =>
        .ok { taker_ata_a := taa, taker_ata_b := tab, maker_ata_b := mab,
              vault_amount_at_close := vlt.amount,
              vault_closed := true,
              escrow_data := v.ctx.escrow,
              escrow_closed := true,
              taker_lamports := v.taker_lamports,
              maker_lamports := v.ctx.maker_lamports + freed + v.ctx.escrow_lamports,
              trace := v.trace ++
                [.transfer v.ctx.mint_b.key
                   (ataAddr v.ctx.taker v.ctx.token_program v.ctx.mint_b.key)
                   (ataAddr v.ctx.maker v.ctx.token_program v.ctx.mint_b.key)
                   v.ctx.escrow.receive v.ctx.taker,
                 .transfer v.ctx.mint_a.key (vaultAddr v.ctx)
                   (ataAddr v.ctx.taker v.ctx.token_program v.ctx.mint_a.key)
                   v.ctx.vault.amount (signer_seeds v),
                 .closeToken (vaultAddr v.ctx) v.ctx.maker (signer_seeds v)
                   v.ctx.vault_lamports,
                 .closeRecord v.ctx.escrow_addr v.ctx.maker v.ctx.escrow_lamports] }

/-- The whole Take instruction: Anchor account validation, then the handler. -/
def run (ctx : Ctx) : Except EscrowError Result :=
  match validate ctx with
  | .error e => .error e
  | .ok v => handler v

end Take

namespace Refund

/-- Accounts context of the Refund instruction (refund.rs `Refund<'info>`).
`maker_ata_a` is an `Option` because it is `init_if_needed` (payer =
maker). -/
structure Ctx where
  maker : Pubkey
  maker_lamports : Nat
  escrow_addr : Pubkey
  escrow_lamports : Nat
  escrow : Escrow
  mint_a : MintAcc
  vault : TokenAcc
  vault_lamports : Nat
  maker_ata_a : Option TokenAcc
  token_program : Pubkey
  ata_rent : Nat
deriving DecidableEq, Repr

/-- Address of the vault account: the escrow PDA's associated token account
for mint_a. -/
def vaultAddr (ctx : Ctx) : Pubkey :=
  ataAddr ctx.escrow_addr ctx.token_program ctx.mint_a.key

/-- Accounts after Anchor's constraint checks and the `init_if_needed` of
maker_ata_a, before the handler body runs. -/
structure Valid where
  ctx : Ctx
  maker_ata_a : TokenAcc
  maker_lamports : Nat
  trace : List Effect
deriving DecidableEq, Repr

/-- Anchor account validation for Refund, in field and constraint order: the
escrow account's `seeds`/`bump` check (against the signing maker account)
precedes its `has_one` checks (`maker @ InvalidMaker`, `mint_a @
InvalidMintA`); then the vault's associated-token constraints and the
`init_if_needed` of maker_ata_a (payer maker). -/
def validate (ctx : Ctx) : Except EscrowError Valid :=
  if ctx.escrow_addr ≠ escrowPda ctx.maker ctx.escrow.seed ctx.escrow.bump then
    .error .ConstraintSeeds
  else if ctx.escrow.maker ≠ ctx.maker then .error .InvalidMaker
  else if ctx.escrow.mint_a ≠ ctx.mint_a.key then .error .InvalidMintA
  else if ctx.vault.mint ≠ ctx.mint_a.key ∨ ctx.vault.owner ≠ ctx.escrow_addr then
    .error .ConstraintAssociated
  else
    match initIfNeeded ctx.maker_ata_a ctx.mint_a.key ctx.maker
        (ataAddr ctx.maker ctx.token_program ctx.mint_a.key) ctx.maker
        ctx.maker_lamports ctx.ata_rent with
    | .error e => .error e
    | .ok (maa, lam, tr) =>
      .ok { ctx, maker_ata_a := maa, maker_lamports := lam, trace := tr }

/-- The program-derived signing capability built by the handler's
`signer_seeds` (refund.rs 69-74). -/
def signer_seeds (v : Valid) : Pubkey :=
  escrowPda v.ctx.maker v.ctx.escrow.seed v.ctx.escrow.bump

/-- Final state of a successful Refund. -/
structure Result where
  maker_ata_a : TokenAcc
  vault_amount_at_close : Nat
  vault_closed : Bool
  escrow_data : Escrow
  escrow_closed : Bool
  maker_lamports : Nat
  trace : List Effect
deriving DecidableEq, Repr

/-- Handler body of Refund (refund.rs 109-112 via
`Refund::refund_and_close_vault`, refund.rs 67-106): a `transfer_checked` of
the vault's whole balance of mint_a back to maker_ata_a and a
`close_account` of the vault to the maker, both signed with `signer_seeds`,
then Anchor's `close = maker` on the escrow record. -/
def handler (v : Valid) : Except EscrowError Result :=
  match transfer_checked v.ctx.vault v.maker_ata_a v.ctx.mint_a (signer_seeds v)
      v.ctx.vault.amount v.ctx.mint_a.decimals with
  | .error e => .error e
  | .ok (vlt, maa) =>
    match close_account vlt (signer_seeds v) v.ctx.vault_lamports with
    | .error e => .error e
    | .ok freed =>
      .ok { maker_ata_a := maa,
            vault_amount_at_close := vlt.amount,
            vault_closed := true,
            escrow_data := v.ctx.escrow,
            escrow_closed := true,
            maker_lamports := v.maker_lamports + freed + v.ctx.escrow_lamports,
            trace := v.trace ++
              [.transfer v.ctx.mint_a.key (vaultAddr v.ctx)
                 (ataAddr v.ctx.maker v.ctx.token_program v.ctx.mint_a.key)
                 v.ctx.vault.amount (signer_seeds v),
               .closeToken (vaultAddr v.ctx) v.ctx.maker (signer_seeds v)
                 v.ctx.vault_lamports,
               .closeRecord v.ctx.escrow_addr v.ctx.maker v.ctx.escrow_lamports] }

/-- The whole Refund instruction: Anchor account validation, then the
handler. -/
def run (ctx : Ctx) : Except EscrowError Result :=
  match validate ctx with
  | .error e => .error e
  | .ok v => handler v

end Refund

/-- Balance of a possibly-absent token account (an absent account holds 0). -/
def optAmount (o : Option TokenAcc) : Nat :=
  (o.map TokenAcc.amount).getD 0

/-- Rent cost incurred by an `init_if_needed` of `o`: the rent if the account
is absent, nothing otherwise. -/
def createCost (rent : Nat) (o : Option TokenAcc) : Nat :=
  if o.isNone then rent else 0

/-- Creation effects of an `init_if_needed` of `o`. -/
def createEffects (o : Option TokenAcc) (addr payer : Pubkey) (rent : Nat) :
    List Effect :=
  if o.isNone then [.createAta addr payer rent] else []

/-- Whether an effect is a token transfer. -/
def Effect.isTransfer : Effect → Bool
  | .transfer _ _ _ _ _ => true
  | _ => false

/-- Decidable equality of instruction outcomes, for evaluating the model on
concrete inputs. -/
instance {ε α : Type} [DecidableEq ε] [DecidableEq α] : DecidableEq (Except ε α) :=
  fun x y =>
    match x, y with
    | .ok a, .ok b =>
      if h : a = b then isTrue (by rw [h]) else isFalse (fun hh => h (by injection hh))
    | .error a, .error b =>
      if h : a = b then isTrue (by rw [h]) else isFalse (fun hh => h (by injection hh))
    | .ok _, .error _ => isFalse (fun hh => Except.noConfusion hh)
    | .error _, .ok _ => isFalse (fun hh => Except.noConfusion hh)

/-- A concrete token program key for the example executions. -/
def tpKey : Pubkey := .ext 100

/-- A concrete maker identity for the example executions. -/
def makerKey : Pubkey := .ext 0

/-- A concrete taker identity for the example executions. -/
def takerKey : Pubkey := .ext 1

/-- A concrete mint for asset A. -/
def mintAEx : MintAcc := { key := .ext 10, owner := tpKey, decimals := 6 }

/-- A concrete mint for asset B. -/
def mintBEx : MintAcc := { key := .ext 11, owner := tpKey, decimals := 9 }

/-- A concrete escrow record: seed 1, receive 100, bump 255, created by
`makerKey` for the pair (mintAEx, mintBEx). -/
def escrowRecEx : Escrow :=
  { seed := 1, maker := makerKey, mint_a := .ext 10, mint_b := .ext 11,
    receive := 100, bump := 255 }

/-- The example record's derived address. -/
def escrowAddrEx : Pubkey := escrowPda makerKey 1 255

/-- A Make context able to deposit 50 of asset A. -/
def makeCtxEx : Make.Ctx :=
  { maker := makerKey, maker_lamports := 20, escrow_bump := 255,
    escrow_fresh := true, vault_fresh := true,
    mint_a := mintAEx, mint_b := mintBEx,
    maker_ata_a := { mint := .ext 10, owner := makerKey, amount := 80 },
    token_program := tpKey, escrow_rent := 4, vault_rent := 3 }

/-- The Make context with asset B bound to the same mint as asset A. -/
def makeCtxABEx : Make.Ctx := { makeCtxEx with mint_b := mintAEx }

/-- The Make context with mint_b owned by a different token program. -/
def makeCtxMixedEx : Make.Ctx :=
  { makeCtxEx with mint_b := { key := .ext 11, owner := .ext 101, decimals := 9 } }

/-- A Take context holding the example record, a vault of 50 A, and a taker
with 100 B; the taker's A account and the maker's B account do not exist
yet. -/
def takeCtxEx : Take.Ctx :=
  { taker := takerKey, taker_lamports := 5,
    maker := makerKey, maker_lamports := 20,
    escrow_addr := escrowAddrEx, escrow_lamports := 7,
    escrow := escrowRecEx,
    mint_a := mintAEx, mint_b := mintBEx,
    vault := { mint := .ext 10, owner := escrowAddrEx, amount := 50 },
    vault_lamports := 3,
    taker_ata_a := none,
    taker_ata_b := { mint := .ext 11, owner := takerKey, amount := 100 },
    maker_ata_b := none,
    token_program := tpKey, ata_rent := 2 }

/-- The Take context with a taker holding only 40 B against a required 100. -/
def takeCtxPoorEx : Take.Ctx :=
  { takeCtxEx with taker_ata_b := { mint := .ext 11, owner := takerKey, amount := 40 } }

/-- The Take context submitted with a maker account other than the record's
stored maker. -/
def takeCtxBadEx : Take.Ctx := { takeCtxEx with maker := .ext 2 }

/-- A Refund context for the example record with a vault of 50 A; the
maker's A account does not exist yet. -/
def refundCtxEx : Refund.Ctx :=
  { maker := makerKey, maker_lamports := 20,
    escrow_addr := escrowAddrEx, escrow_lamports := 7,
    escrow := escrowRecEx, mint_a := mintAEx,
    vault := { mint := .ext 10, owner := escrowAddrEx, amount := 50 },
    vault_lamports := 3,
    maker_ata_a := none,
    token_program := tpKey, ata_rent := 2 }

/-- The Refund context signed by an identity other than the stored maker. -/
def refundCtxBadEx : Refund.Ctx := { refundCtxEx with maker := .ext 2 }

/-- Validated accounts of `makeCtxEx` (escrow and vault allocated). -/
def makeValidEx : Make.Valid :=
  { ctx := makeCtxEx,
    vault := { mint := .ext 10, owner := escrowAddrEx, amount := 0 },
    maker_lamports := 13,
    trace := [.createAta escrowAddrEx makerKey 4,
              .createAta (ataAddr escrowAddrEx tpKey (.ext 10)) makerKey 3] }

/-- Validated accounts of `makeCtxABEx`. -/
def makeValidABEx : Make.Valid := { makeValidEx with ctx := makeCtxABEx }

/-- Outcome of `Make.run makeCtxEx 1 100 50`. -/
def makeResEx : Make.Result :=
  { escrow_addr := escrowAddrEx,
    escrow := escrowRecEx,
    vault := { mint := .ext 10, owner := escrowAddrEx, amount := 50 },
    maker_ata_a := { mint := .ext 10, owner := makerKey, amount := 30 },
    maker_lamports := 13,
    trace := [.createAta escrowAddrEx makerKey 4,
              .createAta (ataAddr escrowAddrEx tpKey (.ext 10)) makerKey 3,
              .transfer (.ext 10) (ataAddr makerKey tpKey (.ext 10))
                (ataAddr escrowAddrEx tpKey (.ext 10)) 50 makerKey] }

/-- Outcome of `Take.run takeCtxEx`. -/
def takeResEx : Take.Result :=
  { taker_ata_a := { mint := .ext 10, owner := takerKey, amount := 50 },
    taker_ata_b := { mint := .ext 11, owner := takerKey, amount := 0 },
    maker_ata_b := { mint := .ext 11, owner := makerKey, amount := 100 },
    vault_amount_at_close := 0, vault_closed := true,
    escrow_data := escrowRecEx, escrow_closed := true,
    taker_lamports := 1, maker_lamports := 30,
    trace := [.createAta (ataAddr takerKey tpKey (.ext 10)) takerKey 2,
              .createAta (ataAddr makerKey tpKey (.ext 11)) takerKey 2,
              .transfer (.ext 11) (ataAddr takerKey tpKey (.ext 11))
                (ataAddr makerKey tpKey (.ext 11)) 100 takerKey,
              .transfer (.ext 10) (ataAddr escrowAddrEx tpKey (.ext 10))
                (ataAddr takerKey tpKey (.ext 10)) 50 escrowAddrEx,
              .closeToken (ataAddr escrowAddrEx tpKey (.ext 10)) makerKey
                escrowAddrEx 3,
              .closeRecord escrowAddrEx makerKey 7] }

/-- Validated accounts of `takeCtxPoorEx`. -/
def takeValidPoorEx : Take.Valid :=
  { ctx := takeCtxPoorEx,
    taker_ata_a := { mint := .ext 10, owner := takerKey, amount := 0 },
    maker_ata_b := { mint := .ext 11, owner := makerKey, amount := 0 },
    taker_lamports := 1,
    trace := [.createAta (ataAddr takerKey tpKey (.ext 10)) takerKey 2,
              .createAta (ataAddr makerKey tpKey (.ext 11)) takerKey 2] }

/-- Outcome of `Refund.run refundCtxEx`. -/
def refundResEx : Refund.Result :=
  { maker_ata_a := { mint := .ext 10, owner := makerKey, amount := 50 },
    vault_amount_at_close := 0, vault_closed := true,
    escrow_data := escrowRecEx, escrow_closed := true,
    maker_lamports := 28,
    trace := [.createAta (ataAddr makerKey tpKey (.ext 10)) makerKey 2,
              .transfer (.ext 10) (ataAddr escrowAddrEx tpKey (.ext 10))
                (ataAddr makerKey tpKey (.ext 10)) 50 escrowAddrEx,
              .closeToken (ataAddr escrowAddrEx tpKey (.ext 10)) makerKey
                escrowAddrEx 3,
              .closeRecord escrowAddrEx makerKey 7] }

lemma transfer_checked_ok_spec (src dst : TokenAcc) (mint : MintAcc) (auth : Pubkey)
    (amt dec : Nat) (p : TokenAcc × TokenAcc)
    (h : transfer_checked src dst mint auth amt dec = .ok p) :
    p = ({ src with amount := src.amount - amt }, { dst with amount := dst.amount + amt })
    ∧ src.mint = mint.key ∧ dst.mint = mint.key ∧ dec = mint.decimals
    ∧ auth = src.owner ∧ amt ≤ src.amount ∧ dst.amount + amt ≤ u64Max := by
  unfold transfer_checked at h
  repeat' split at h
  all_goals simp_all

lemma close_account_ok_spec (acct : TokenAcc) (auth : Pubkey) (lam n : Nat)
    (h : close_account acct auth lam = .ok n) :
    acct.amount = 0 ∧ auth = acct.owner ∧ n = lam := by
  unfold close_account at h
  repeat' split at h
  all_goals simp_all

lemma initIfNeeded_ok_spec (acc : Option TokenAcc) (mint owner addr payer : Pubkey)
    (lam rent : Nat) (out : TokenAcc × Nat × List Effect)
    (h : initIfNeeded acc mint owner addr payer lam rent = .ok out) :
    out.1.mint = mint ∧ out.1.owner = owner ∧ out.1.amount = optAmount acc
    ∧ out.2.1 + createCost rent acc = lam
    ∧ out.2.2 = createEffects acc addr payer rent := by
  cases acc with
  | some a =>
    simp only [initIfNeeded] at h
    split at h
    · exact absurd h (by simp)
    · simp only [Except.ok.injEq] at h
      subst h
      simp_all [optAmount, createCost, createEffects]
  | none =>
    simp only [initIfNeeded] at h
    split at h
    · exact absurd h (by simp)
    · simp only [Except.ok.injEq] at h
      subst h
      rename_i hlt
      simp [optAmount, createCost, createEffects]
      omega

lemma make_run_ok_elim (ctx : Make.Ctx) (seed receive amount : Nat) (r : Make.Result)
    (h : Make.run ctx seed receive amount = .ok r) :
    ∃ v, Make.validate ctx seed = .ok v ∧ Make.handler v seed receive amount = .ok r := by
  unfold Make.run at h
  split at h
  · exact absurd h (by simp)
  · exact ⟨_, by assumption, h⟩

lemma take_run_ok_elim (ctx : Take.Ctx) (r : Take.Result)
    (h : Take.run ctx = .ok r) :
    ∃ v, Take.validate ctx = .ok v ∧ Take.handler v = .ok r := by
  unfold Take.run at h
  split at h
  · exact absurd h (by simp)
  · exact ⟨_, by assumption, h⟩

lemma refund_run_ok_elim (ctx : Refund.Ctx) (r : Refund.Result)
    (h : Refund.run ctx = .ok r) :
    ∃ v, Refund.validate ctx = .ok v ∧ Refund.handler v = .ok r := by
  unfold Refund.run at h
  split at h
  · exact absurd h (by simp)
  · exact ⟨_, by assumption, h⟩

lemma make_validate_ok_spec (ctx : Make.Ctx) (seed : Nat) (v : Make.Valid)
    (h : Make.validate ctx seed = .ok v) :
    v.ctx = ctx ∧ ctx.escrow_fresh = true ∧ ctx.vault_fresh = true
    ∧ ctx.mint_a.owner = ctx.token_program ∧ ctx.mint_b.owner = ctx.token_program
    ∧ ctx.maker_ata_a.mint = ctx.mint_a.key ∧ ctx.maker_ata_a.owner = ctx.maker
    ∧ v.vault = { mint := ctx.mint_a.key, owner := Make.escrowAddr ctx seed, amount := 0 }
    ∧ v.maker_lamports = ctx.maker_lamports - ctx.escrow_rent - ctx.vault_rent
    ∧ ctx.escrow_rent + ctx.vault_rent ≤ ctx.maker_lamports
    ∧ v.trace = [.createAta (Make.escrowAddr ctx seed) ctx.maker ctx.escrow_rent,
                 .createAta (Make.vaultAddr ctx seed) ctx.maker ctx.vault_rent] := by
  unfold Make.validate at h
  split at h
  · exact Except.noConfusion h
  rename_i h1
  split at h
  · exact Except.noConfusion h
  rename_i h2
  split at h
  · exact Except.noConfusion h
  rename_i h3
  split at h
  · exact Except.noConfusion h
  rename_i h4
  split at h
  · exact Except.noConfusion h
  rename_i h5
  split at h
  · exact Except.noConfusion h
  rename_i h6
  split at h
  · exact Except.noConfusion h
  rename_i h7
  simp only [Except.ok.injEq] at h
  subst h
  simp only [Bool.not_eq_true, Bool.not_eq_eq_eq_not, Bool.not_true,
    Bool.not_eq_false] at h1 h6
  simp only [not_or, not_not] at h3 h4 h5
  exact ⟨rfl, h1, h6, h3, h4, h5.1, h5.2, rfl, rfl, by omega, rfl⟩

lemma make_handler_ok_spec (v : Make.Valid) (seed receive amount : Nat) (r : Make.Result)
    (h : Make.handler v seed receive amount = .ok r) :
    receive ≠ 0 ∧ amount ≠ 0 ∧ v.ctx.mint_a.key ≠ v.ctx.mint_b.key
    ∧ amount ≤ v.ctx.maker_ata_a.amount
    ∧ r.escrow_addr = Make.escrowAddr v.ctx seed
    ∧ r.escrow = Make.populate_escrow v.ctx seed receive v.ctx.escrow_bump
    ∧ r.vault = { v.vault with amount := v.vault.amount + amount }
    ∧ r.maker_ata_a = { v.ctx.maker_ata_a with
        amount := v.ctx.maker_ata_a.amount - amount }
    ∧ r.maker_lamports = v.maker_lamports
    ∧ r.trace = v.trace ++
        [.transfer v.ctx.mint_a.key
          (ataAddr v.ctx.maker v.ctx.token_program v.ctx.mint_a.key)
          (Make.vaultAddr v.ctx seed) amount v.ctx.maker] := by
  unfold Make.handler at h
  split at h
  · exact Except.noConfusion h
  rename_i hrec
  split at h
  · exact Except.noConfusion h
  rename_i hamt
  split at h
  · exact Except.noConfusion h
  rename_i hmint
  split at h
  · exact Except.noConfusion h
  rename_i hbal
  split at h
  · exact Except.noConfusion h
  rename_i src dst heq
  unfold Make.deposit_tokens at heq
  obtain ⟨hp, hsm, hdm, hdec, hauth, hle, hov⟩ :=
    transfer_checked_ok_spec _ _ _ _ _ _ _ heq
  simp only [Prod.mk.injEq] at hp
  obtain ⟨hsrc, hdst⟩ := hp
  subst hsrc
  subst hdst
  simp only [Except.ok.injEq] at h
  subst h
  refine ⟨hrec, hamt, hmint, by omega, rfl, rfl, rfl, rfl, rfl, rfl⟩

lemma take_validate_ok_spec (ctx : Take.Ctx) (v : Take.Valid)
    (h : Take.validate ctx = .ok v) :
    v.ctx = ctx
    ∧ ctx.escrow_addr = escrowPda ctx.maker ctx.escrow.seed ctx.escrow.bump
    ∧ ctx.escrow.maker = ctx.maker
    ∧ ctx.escrow.mint_a = ctx.mint_a.key
    ∧ ctx.escrow.mint_b = ctx.mint_b.key
    ∧ ctx.vault.mint = ctx.mint_a.key ∧ ctx.vault.owner = ctx.escrow_addr
    ∧ v.taker_ata_a.mint = ctx.mint_a.key ∧ v.taker_ata_a.owner = ctx.taker
    ∧ v.taker_ata_a.amount = optAmount ctx.taker_ata_a
    ∧ ctx.taker_ata_b.mint = ctx.mint_b.key ∧ ctx.taker_ata_b.owner = ctx.taker
    ∧ v.maker_ata_b.mint = ctx.mint_b.key ∧ v.maker_ata_b.owner = ctx.maker
    ∧ v.maker_ata_b.amount = optAmount ctx.maker_ata_b
    ∧ v.taker_lamports + createCost ctx.ata_rent ctx.taker_ata_a
        + createCost ctx.ata_rent ctx.maker_ata_b = ctx.taker_lamports
    ∧ v.trace = createEffects ctx.taker_ata_a
          (ataAddr ctx.taker ctx.token_program ctx.mint_a.key) ctx.taker ctx.ata_rent
        ++ createEffects ctx.maker_ata_b
          (ataAddr ctx.maker ctx.token_program ctx.mint_b.key) ctx.taker
          ctx.ata_rent := by
  unfold Take.validate at h
  split at h
  · exact Except.noConfusion h
  rename_i h1
  split at h
  · exact Except.noConfusion h
  rename_i h2
  split at h
  · exact Except.noConfusion h
  rename_i h3
  split at h
  · exact Except.noConfusion h
  rename_i h4
  split at h
  · exact Except.noConfusion h
  rename_i h5
  split at h
  · exact Except.noConfusion h
  rename_i taa lam1 tr1 heq1
  split at h
  · exact Except.noConfusion h
  rename_i h6
  split at h
  · exact Except.noConfusion h
  rename_i mab lam2 tr2 heq2
  obtain ⟨ha1, ha2, ha3, ha4, ha5⟩ := initIfNeeded_ok_spec _ _ _ _ _ _ _ _ heq1
  obtain ⟨hb1, hb2, hb3, hb4, hb5⟩ := initIfNeeded_ok_spec _ _ _ _ _ _ _ _ heq2
  simp only [Except.ok.injEq] at h
  subst h
  simp only [not_not, not_or] at h1 h2 h3 h4 h5 h6
  dsimp only at ha1 ha2 ha3 ha4 ha5 hb1 hb2 hb3 hb4 hb5
  refine ⟨rfl, h1, h2, h3, h4, h5.1, h5.2, ha1, ha2, ha3, h6.1, h6.2,
    hb1, hb2, hb3, ?_, ?_⟩
  · dsimp only
    omega
  · dsimp only
    rw [ha5, hb5]

lemma take_handler_ok_spec (v : Take.Valid) (r : Take.Result)
    (h : Take.handler v = .ok r) :
    v.ctx.escrow.receive ≤ v.ctx.taker_ata_b.amount
    ∧ Take.signer_seeds v = v.ctx.vault.owner
    ∧ r.taker_ata_b = { v.ctx.taker_ata_b with
        amount := v.ctx.taker_ata_b.amount - v.ctx.escrow.receive }
    ∧ r.maker_ata_b = { v.maker_ata_b with
        amount := v.maker_ata_b.amount + v.ctx.escrow.receive }
    ∧ r.taker_ata_a = { v.taker_ata_a with
        amount := v.taker_ata_a.amount + v.ctx.vault.amount }
    ∧ r.vault_amount_at_close = 0
    ∧ r.vault_closed = true
    ∧ r.escrow_data = v.ctx.escrow
    ∧ r.escrow_closed = true
    ∧ r.taker_lamports = v.taker_lamports
    ∧ r.maker_lamports = v.ctx.maker_lamports + v.ctx.vault_lamports
        + v.ctx.escrow_lamports
    ∧ r.trace = v.trace ++
        [.transfer v.ctx.mint_b.key
           (ataAddr v.ctx.taker v.ctx.token_program v.ctx.mint_b.key)
           (ataAddr v.ctx.maker v.ctx.token_program v.ctx.mint_b.key)
           v.ctx.escrow.receive v.ctx.taker,
         .transfer v.ctx.mint_a.key (Take.vaultAddr v.ctx)
           (ataAddr v.ctx.taker v.ctx.token_program v.ctx.mint_a.key)
           v.ctx.vault.amount (Take.signer_seeds v),
         .closeToken (Take.vaultAddr v.ctx) v.ctx.maker (Take.signer_seeds v)
           v.ctx.vault_lamports,
         .closeRecord v.ctx.escrow_addr v.ctx.maker v.ctx.escrow_lamports] := by
  unfold Take.handler at h
  split at h
  · exact Except.noConfusion h
  rename_i tab mab heq1
  split at h
  · exact Except.noConfusion h
  rename_i vlt taa heq2
  split at h
  · exact Except.noConfusion h
  rename_i freed heq3
  unfold Take.transfer_to_maker at heq1
  obtain ⟨hp1, _, _, _, _, hle1, _⟩ := transfer_checked_ok_spec _ _ _ _ _ _ _ heq1
  obtain ⟨hp2, _, _, _, hauth2, hle2, _⟩ := transfer_checked_ok_spec _ _ _ _ _ _ _ heq2
  obtain ⟨hz, _, hfree⟩ := close_account_ok_spec _ _ _ _ heq3
  simp only [Prod.mk.injEq] at hp1 hp2
  obtain ⟨htab, hmab⟩ := hp1
  obtain ⟨hvlt, htaa⟩ := hp2
  subst htab
  subst hmab
  subst hvlt
  subst htaa
  simp only [Except.ok.injEq] at h
  subst h
  exact ⟨hle1, hauth2, rfl, rfl, rfl, hz, rfl, rfl, rfl, rfl, by rw [hfree], rfl⟩

lemma refund_validate_ok_spec (ctx : Refund.Ctx) (v : Refund.Valid)
    (h : Refund.validate ctx = .ok v) :
    v.ctx = ctx
    ∧ ctx.escrow_addr = escrowPda ctx.maker ctx.escrow.seed ctx.escrow.bump
    ∧ ctx.escrow.maker = ctx.maker
    ∧ ctx.escrow.mint_a = ctx.mint_a.key
    ∧ ctx.vault.mint = ctx.mint_a.key ∧ ctx.vault.owner = ctx.escrow_addr
    ∧ v.maker_ata_a.mint = ctx.mint_a.key ∧ v.maker_ata_a.owner = ctx.maker
    ∧ v.maker_ata_a.amount = optAmount ctx.maker_ata_a
    ∧ v.maker_lamports + createCost ctx.ata_rent ctx.maker_ata_a = ctx.maker_lamports
    ∧ v.trace = createEffects ctx.maker_ata_a
        (ataAddr ctx.maker ctx.token_program ctx.mint_a.key) ctx.maker
        ctx.ata_rent := by
  unfold Refund.validate at h
  split at h
  · exact Except.noConfusion h
  rename_i h1
  split at h
  · exact Except.noConfusion h
  rename_i h2
  split at h
  · exact Except.noConfusion h
  rename_i h3
  split at h
  · exact Except.noConfusion h
  rename_i h4
  split at h
  · exact Except.noConfusion h
  rename_i maa lam tr heq
  obtain ⟨ha1, ha2, ha3, ha4, ha5⟩ := initIfNeeded_ok_spec _ _ _ _ _ _ _ _ heq
  simp only [Except.ok.injEq] at h
  subst h
  simp only [not_not, not_or] at h1 h2 h3 h4
  exact ⟨rfl, h1, h2, h3, h4.1, h4.2, ha1, ha2, ha3, ha4, ha5⟩

lemma refund_handler_ok_spec (v : Refund.Valid) (r : Refund.Result)
    (h : Refund.handler v = .ok r) :
    Refund.signer_seeds v = v.ctx.vault.owner
    ∧ r.maker_ata_a = { v.maker_ata_a with
        amount := v.maker_ata_a.amount + v.ctx.vault.amount }
    ∧ r.vault_amount_at_close = 0
    ∧ r.vault_closed = true
    ∧ r.escrow_data = v.ctx.escrow
    ∧ r.escrow_closed = true
    ∧ r.maker_lamports = v.maker_lamports + v.ctx.vault_lamports
        + v.ctx.escrow_lamports
    ∧ r.trace = v.trace ++
        [.transfer v.ctx.mint_a.key (Refund.vaultAddr v.ctx)
           (ataAddr v.ctx.maker v.ctx.token_program v.ctx.mint_a.key)
           v.ctx.vault.amount (Refund.signer_seeds v),
         .closeToken (Refund.vaultAddr v.ctx) v.ctx.maker (Refund.signer_seeds v)
           v.ctx.vault_lamports,
         .closeRecord v.ctx.escrow_addr v.ctx.maker v.ctx.escrow_lamports] := by
  unfold Refund.handler at h
  split at h
  · exact Except.noConfusion h
  rename_i vlt maa heq1
  split at h
  · exact Except.noConfusion h
  rename_i freed heq2
  obtain ⟨hp, _, _, _, hauth, hle, _⟩ := transfer_checked_ok_spec _ _ _ _ _ _ _ heq1
  obtain ⟨hz, _, hfree⟩ := close_account_ok_spec _ _ _ _ heq2
  simp only [Prod.mk.injEq] at hp
  obtain ⟨hvlt, hmaa⟩ := hp
  subst hvlt
  subst hmaa
  simp only [Except.ok.injEq] at h
  subst h
  exact ⟨hauth, rfl, hz, rfl, rfl, rfl, by rw [hfree], rfl⟩

lemma createEffects_filter_transfer (o : Option TokenAcc) (addr payer : Pubkey)
    (rent : Nat) :
    (createEffects o addr payer rent).filter Effect.isTransfer = [] := by
  cases o <;> simp [createEffects, Effect.isTransfer, List.filter]

lemma createEffects_no_transfer (o : Option TokenAcc) (addr payer : Pubkey)
    (rent : Nat) (mint src dst : Pubkey) (amt : Nat) (auth : Pubkey) :
    Effect.transfer mint src dst amt auth ∉ createEffects o addr payer rent := by
  cases o <;> simp [createEffects]

lemma createEffects_no_close (o : Option TokenAcc) (addr payer : Pubkey)
    (rent : Nat) (acct dest auth : Pubkey) (lam : Nat) :
    Effect.closeToken acct dest auth lam ∉ createEffects o addr payer rent := by
  cases o <;> simp [createEffects]

lemma make_run_error_of_validate_error (ctx : Make.Ctx) (seed receive amount : Nat)
    (e : EscrowError) (h : Make.validate ctx seed = .error e) :
    Make.run ctx seed receive amount = .error e := by
  simp only [Make.run, h]

lemma take_run_error_of_validate_error (ctx : Take.Ctx) (e : EscrowError)
    (h : Take.validate ctx = .error e) : Take.run ctx = .error e := by
  simp only [Take.run, h]

lemma refund_run_error_of_validate_error (ctx : Refund.Ctx) (e : EscrowError)
    (h : Refund.validate ctx = .error e) : Refund.run ctx = .error e := by
  simp only [Refund.run, h]

lemma make_validate_no_invalid_amount (ctx : Make.Ctx) (seed : Nat) :
    Make.validate ctx seed ≠ .error .InvalidAmount := by
  unfold Make.validate
  repeat' split
  all_goals simp

lemma transfer_checked_no_invalid_amount (src dst : TokenAcc) (mint : MintAcc)
    (auth : Pubkey) (amt dec : Nat) :
    transfer_checked src dst mint auth amt dec ≠ .error .InvalidAmount := by
  unfold transfer_checked
  repeat' split
  all_goals simp

/-- C1: For every successful Fulfill (take) execution, the maker's asset_b
balance increases by exactly the record's stored receive amount, the taker's
asset_a balance increases by exactly the vault's pre-execution balance (the
whole vault is swept), and the vault ends at zero balance and is closed.
The two inequality hypotheses record the distinct-roles modelling boundary:
the record pairs two distinct mints (as Create guarantees) and the taker is
a different party than the maker, so no two context roles alias one on-chain
account. -/
theorem take_conservation (ctx : Take.Ctx) (r : Take.Result)
    (hmint : ctx.escrow.mint_a ≠ ctx.escrow.mint_b)
    (hparty : ctx.taker ≠ ctx.maker)
    (h : Take.run ctx = .ok r) :
    r.maker_ata_b.amount = optAmount ctx.maker_ata_b + ctx.escrow.receive
    ∧ r.taker_ata_a.amount = optAmount ctx.taker_ata_a + ctx.vault.amount
    ∧ r.vault_amount_at_close = 0
    ∧ r.vault_closed = true := by
  obtain ⟨v, hv, hh⟩ := take_run_ok_elim ctx r h
  obtain ⟨hvc, _, _, _, _, _, _, _, _, htaa, _, _, _, _, hmab, _, _⟩ :=
    take_validate_ok_spec ctx v hv
  obtain ⟨_, _, _, hrmab, hrtaa, hz, hcl, _, _, _, _, _⟩ := take_handler_ok_spec v r hh
  refine ⟨?_, ?_, hz, hcl⟩
  · rw [hrmab]
    dsimp only
    rw [hmab, hvc]
  · rw [hrtaa]
    dsimp only
    rw [htaa, hvc]

/-- Witness for C1: the example Fulfill execution, with a vault of 50 A, a
receive amount of 100 B, and a previously absent taker A account. -/
theorem take_conservation_witness :
    takeCtxEx.escrow.mint_a ≠ takeCtxEx.escrow.mint_b
    ∧ takeCtxEx.taker ≠ takeCtxEx.maker
    ∧ Take.run takeCtxEx = .ok takeResEx
    ∧ takeResEx.maker_ata_b.amount
        = optAmount takeCtxEx.maker_ata_b + takeCtxEx.escrow.receive
    ∧ takeResEx.taker_ata_a.amount
        = optAmount takeCtxEx.taker_ata_a + takeCtxEx.vault.amount
    ∧ takeResEx.vault_amount_at_close = 0
    ∧ takeResEx.vault_closed = true :=
  let h := take_conservation takeCtxEx takeResEx (by decide) (by decide) rfl
  ⟨by decide, by decide, rfl, h.1, h.2.1, h.2.2.1, h.2.2.2⟩

/-- C2: In Fulfill (take), the transfer of receive_amount of asset_b from
taker to maker executes before any withdrawal from the vault: if that first
transfer fails, the whole transition aborts with the same error and no
post-state exists (no tokens of either asset move); and in every successful
run the trace's transfers are exactly the taker→maker asset_b payment
followed by the vault→taker asset_a sweep, in that order. -/
theorem take_pay_before_release :
    (∀ (ctx : Take.Ctx) (v : Take.Valid) (e : EscrowError),
        Take.validate ctx = .ok v → Take.transfer_to_maker v = .error e →
        Take.run ctx = .error e)
    ∧ (∀ (ctx : Take.Ctx) (r : Take.Result), Take.run ctx = .ok r →
        r.trace.filter Effect.isTransfer =
          [.transfer ctx.mint_b.key
             (ataAddr ctx.taker ctx.token_program ctx.mint_b.key)
             (ataAddr ctx.maker ctx.token_program ctx.mint_b.key)
             ctx.escrow.receive ctx.taker,
           .transfer ctx.mint_a.key (Take.vaultAddr ctx)
             (ataAddr ctx.taker ctx.token_program ctx.mint_a.key)
             ctx.vault.amount
             (escrowPda ctx.maker ctx.escrow.seed ctx.escrow.bump)]) := by
  constructor
  · intro ctx v e hv he
    simp only [Take.run, hv, Take.handler, he]
  · intro ctx r h
    obtain ⟨v, hv, hh⟩ := take_run_ok_elim ctx r h
    obtain ⟨hvc, _, _, _, _, _, _, _, _, _, _, _, _, _, _, _, htr⟩ :=
      take_validate_ok_spec ctx v hv
    obtain ⟨_, _, _, _, _, _, _, _, _, _, _, hrtr⟩ := take_handler_ok_spec v r hh
    rw [hrtr, htr]
    simp only [Take.signer_seeds, hvc]
    simp [List.filter_append, createEffects_filter_transfer, List.filter,
      Effect.isTransfer]

/-- Witness for C2: a taker holding only 40 B against a required 100 makes
the first transfer fail and the whole Take abort with that error; and the
successful example run orders its two transfers payment-first. -/
theorem take_pay_before_release_witness :
    Take.validate takeCtxPoorEx = .ok takeValidPoorEx
    ∧ Take.transfer_to_maker takeValidPoorEx = .error .TokenInsufficientFunds
    ∧ Take.run takeCtxPoorEx = .error .TokenInsufficientFunds
    ∧ Take.run takeCtxEx = .ok takeResEx
    ∧ takeResEx.trace.filter Effect.isTransfer =
        [.transfer takeCtxEx.mint_b.key
           (ataAddr takeCtxEx.taker takeCtxEx.token_program takeCtxEx.mint_b.key)
           (ataAddr takeCtxEx.maker takeCtxEx.token_program takeCtxEx.mint_b.key)
           takeCtxEx.escrow.receive takeCtxEx.taker,
         .transfer takeCtxEx.mint_a.key (Take.vaultAddr takeCtxEx)
           (ataAddr takeCtxEx.taker takeCtxEx.token_program takeCtxEx.mint_a.key)
           takeCtxEx.vault.amount
           (escrowPda takeCtxEx.maker takeCtxEx.escrow.seed
             takeCtxEx.escrow.bump)] :=
  ⟨rfl, rfl,
   take_pay_before_release.1 takeCtxPoorEx takeValidPoorEx .TokenInsufficientFunds
     rfl rfl,
   rfl,
   take_pay_before_release.2 takeCtxEx takeResEx rfl⟩

/-- C3: For every successful Cancel (refund) execution, the entire vault
balance of asset_a returns to the maker's asset_a account, the vault is
closed with its rent lamports returned to the maker, the escrow record is
closed with its lamports returned to the maker (net of the maker-paid
`init_if_needed` of their own asset_a account, when that account was
absent), and no asset_b moves at any point: every transfer in the trace is
of the record's asset_a mint. -/
theorem refund_conservation (ctx : Refund.Ctx) (r : Refund.Result)
    (hmint : ctx.escrow.mint_a ≠ ctx.escrow.mint_b)
    (h : Refund.run ctx = .ok r) :
    r.maker_ata_a.amount = optAmount ctx.maker_ata_a + ctx.vault.amount
    ∧ r.vault_amount_at_close = 0
    ∧ r.vault_closed = true
    ∧ r.escrow_closed = true
    ∧ r.maker_lamports + createCost ctx.ata_rent ctx.maker_ata_a
        = ctx.maker_lamports + ctx.vault_lamports + ctx.escrow_lamports
    ∧ ∀ mint src dst amt auth, Effect.transfer mint src dst amt auth ∈ r.trace →
        mint = ctx.escrow.mint_a ∧ mint ≠ ctx.escrow.mint_b := by
  obtain ⟨v, hv, hh⟩ := refund_run_ok_elim ctx r h
  obtain ⟨hvc, h2, h3, h4, h5, h6, h7, h8, hmaa, hlam, htr⟩ :=
    refund_validate_ok_spec ctx v hv
  obtain ⟨_, hrmaa, hz, hcl, _, hecl, hml, hrtr⟩ := refund_handler_ok_spec v r hh
  refine ⟨?_, hz, hcl, hecl, ?_, ?_⟩
  · rw [hrmaa]
    dsimp only
    rw [hmaa, hvc]
  · rw [hml, hvc]
    omega
  · intro mint src dst amt auth hmem
    rw [hrtr, htr, hvc] at hmem
    simp only [List.mem_append, List.mem_cons, List.not_mem_nil, or_false] at hmem
    rcases hmem with hmem | hmem | hmem | hmem
    · exact absurd hmem (createEffects_no_transfer _ _ _ _ _ _ _ _ _)
    · injection hmem with hm _
      subst hm
      exact ⟨h4.symm, by rw [← h4]; exact hmint⟩
    · exact Effect.noConfusion hmem
    · exact Effect.noConfusion hmem

/-- Witness for C3: the example Cancel execution returning 50 A to the
maker, sweeping 3 + 7 lamports back net of the 2-lamport account creation,
with its only transfer being of asset_a. -/
theorem refund_conservation_witness :
    refundCtxEx.escrow.mint_a ≠ refundCtxEx.escrow.mint_b
    ∧ Refund.run refundCtxEx = .ok refundResEx
    ∧ refundResEx.maker_ata_a.amount
        = optAmount refundCtxEx.maker_ata_a + refundCtxEx.vault.amount
    ∧ refundResEx.vault_closed = true
    ∧ refundResEx.escrow_closed = true
    ∧ refundResEx.maker_lamports + createCost refundCtxEx.ata_rent
        refundCtxEx.maker_ata_a
        = refundCtxEx.maker_lamports + refundCtxEx.vault_lamports
          + refundCtxEx.escrow_lamports
    ∧ Pubkey.ext 10 = refundCtxEx.escrow.mint_a
    ∧ Pubkey.ext 10 ≠ refundCtxEx.escrow.mint_b :=
  let h := refund_conservation refundCtxEx refundResEx (by decide) rfl
  let ht := h.2.2.2.2.2 (.ext 10) (ataAddr escrowAddrEx tpKey (.ext 10))
    (ataAddr makerKey tpKey (.ext 10)) 50 escrowAddrEx (by decide)
  ⟨by decide, rfl, h.1, h.2.2.1, h.2.2.2.1, h.2.2.2.2.1, ht.1, ht.2⟩

/-- C4 counterexample: a Cancel signed by `ext 2` against a record stored at
the derivation of its true maker `ext 0` fails with the seeds-derivation
error `ConstraintSeeds`, not with `InvalidMaker` — the `seeds`/`bump` check
of the escrow account runs before its `has_one = maker` check and uses the
supplied maker account as a derivation input. -/
theorem cancel_wrong_signer_error_not_invalid_maker :
    refundCtxBadEx.maker ≠ refundCtxBadEx.escrow.maker
    ∧ Refund.run refundCtxBadEx = .error .ConstraintSeeds
    ∧ Refund.run refundCtxBadEx ≠ .error .InvalidMaker := by
  refine ⟨by decide, rfl, by decide⟩

/-- C4 amended: a Cancel (refund) request whose signer differs from the
record's stored maker fails and moves no funds, and likewise a Fulfill
(take) request whose supplied maker identity differs from the record's
stored maker; the error is `InvalidMaker` only in the residual case where
the escrow account's address still matches the derivation from the supplied
maker (impossible for records this program created), and otherwise is the
derivation error `ConstraintSeeds`. -/
theorem wrong_maker_rejection :
    (∀ ctx : Refund.Ctx, ctx.maker ≠ ctx.escrow.maker →
        Refund.run ctx = .error
          (if ctx.escrow_addr = escrowPda ctx.maker ctx.escrow.seed ctx.escrow.bump
           then EscrowError.InvalidMaker else EscrowError.ConstraintSeeds))
    ∧ (∀ ctx : Take.Ctx, ctx.maker ≠ ctx.escrow.maker →
        Take.run ctx = .error
          (if ctx.escrow_addr = escrowPda ctx.maker ctx.escrow.seed ctx.escrow.bump
           then EscrowError.InvalidMaker else EscrowError.ConstraintSeeds)) := by
  constructor
  · intro ctx hne
    have hmkr : ctx.escrow.maker ≠ ctx.maker := fun hEq => hne hEq.symm
    by_cases haddr : ctx.escrow_addr
        = escrowPda ctx.maker ctx.escrow.seed ctx.escrow.bump
    · rw [if_pos haddr]
      apply refund_run_error_of_validate_error
      unfold Refund.validate
      rw [if_neg (not_not_intro haddr), if_pos hmkr]
    · rw [if_neg haddr]
      apply refund_run_error_of_validate_error
      unfold Refund.validate
      rw [if_pos haddr]
  · intro ctx hne
    have hmkr : ctx.escrow.maker ≠ ctx.maker := fun hEq => hne hEq.symm
    by_cases haddr : ctx.escrow_addr
        = escrowPda ctx.maker ctx.escrow.seed ctx.escrow.bump
    · rw [if_pos haddr]
      apply take_run_error_of_validate_error
      unfold Take.validate
      rw [if_neg (not_not_intro haddr), if_pos hmkr]
    · rw [if_neg haddr]
      apply take_run_error_of_validate_error
      unfold Take.validate
      rw [if_pos haddr]

/-- Witness for C4 amended: the wrong-signer Cancel and wrong-maker Fulfill
examples both abort with the derivation error. -/
theorem wrong_maker_rejection_witness :
    refundCtxBadEx.maker ≠ refundCtxBadEx.escrow.maker
    ∧ Refund.run refundCtxBadEx = .error
        (if refundCtxBadEx.escrow_addr = escrowPda refundCtxBadEx.maker
            refundCtxBadEx.escrow.seed refundCtxBadEx.escrow.bump
         then EscrowError.InvalidMaker else EscrowError.ConstraintSeeds)
    ∧ takeCtxBadEx.maker ≠ takeCtxBadEx.escrow.maker
    ∧ Take.run takeCtxBadEx = .error
        (if takeCtxBadEx.escrow_addr = escrowPda takeCtxBadEx.maker
            takeCtxBadEx.escrow.seed takeCtxBadEx.escrow.bump
         then EscrowError.InvalidMaker else EscrowError.ConstraintSeeds) :=
  ⟨by decide, wrong_maker_rejection.1 refundCtxBadEx (by decide),
   by decide, wrong_maker_rejection.2 takeCtxBadEx (by decide)⟩

/-- C5: Create fails with `InvalidAmount` whenever the requested receive
amount or the deposit amount is zero, provided account validation passed
(the handler's amount checks run before the record is populated and before
any deposit, and a failed run commits nothing); and with both amounts
strictly positive the amount check passes — no execution reports
`InvalidAmount`. -/
theorem make_zero_amount_rejection :
    (∀ (ctx : Make.Ctx) (seed : Nat) (v : Make.Valid) (receive amount : Nat),
        Make.validate ctx seed = .ok v → (receive = 0 ∨ amount = 0) →
        Make.run ctx seed receive amount = .error .InvalidAmount)
    ∧ (∀ (ctx : Make.Ctx) (seed receive amount : Nat), 0 < receive → 0 < amount →
        Make.run ctx seed receive amount ≠ .error .InvalidAmount) := by
  constructor
  · intro ctx seed v receive amount hv hor
    simp only [Make.run, hv]
    unfold Make.handler
    rcases hor with h0 | h0
    · rw [if_pos h0]
    · subst h0
      by_cases hr : receive = 0
      · rw [if_pos hr]
      · rw [if_neg hr, if_pos rfl]
  · intro ctx seed receive amount hrec hamt hcontra
    unfold Make.run at hcontra
    split at hcontra
    · rename_i e heq
      simp only [Except.error.injEq] at hcontra
      subst hcontra
      exact make_validate_no_invalid_amount ctx seed heq
    · rename_i v heq
      unfold Make.handler at hcontra
      rw [if_neg (by omega : ¬receive = 0), if_neg (by omega : ¬amount = 0)]
        at hcontra
      split at hcontra
      · exact absurd hcontra (by decide)
      · split at hcontra
        · exact absurd hcontra (by decide)
        · split at hcontra
          · rename_i e heq2
            simp only [Except.error.injEq] at hcontra
            subst hcontra
            unfold Make.deposit_tokens at heq2
            exact transfer_checked_no_invalid_amount _ _ _ _ _ _ heq2
          · exact Except.noConfusion hcontra

/-- Witness for C5: on the validated example accounts, a zero receive amount
aborts with `InvalidAmount`, while the positive-amount run does not report
`InvalidAmount`. -/
theorem make_zero_amount_rejection_witness :
    Make.validate makeCtxEx 1 = .ok makeValidEx
    ∧ Make.run makeCtxEx 1 0 50 = .error .InvalidAmount
    ∧ Make.run makeCtxEx 1 100 50 ≠ .error .InvalidAmount :=
  ⟨rfl,
   make_zero_amount_rejection.1 makeCtxEx 1 makeValidEx 0 50 rfl (Or.inl rfl),
   make_zero_amount_rejection.2 makeCtxEx 1 100 50 (by decide) (by decide)⟩

/-- C6 counterexample: with both supplied mints equal but a zero receive
amount, Create fails with `InvalidAmount` — the amount checks precede the
equal-mints check — so it does not fail with the asset error (`InvalidMintA`
in the code, the spec's InvalidAsset) as the claim states for every A = B
request. -/
theorem make_equal_mints_error_masked :
    makeCtxABEx.mint_a.key = makeCtxABEx.mint_b.key
    ∧ Make.run makeCtxABEx 1 0 5 = .error .InvalidAmount
    ∧ Make.run makeCtxABEx 1 0 5 ≠ .error .InvalidMintA := by
  refine ⟨rfl, rfl, by decide⟩

/-- C6 amended: on validated accounts with both amounts positive, Create
fails with `InvalidMintA` (the code's rendering of the spec's InvalidAsset)
whenever the supplied asset_a mint equals the supplied asset_b mint, before
any deposit occurs; and in every case an escrow record with asset_a equal to
asset_b can never be created. -/
theorem make_equal_mints_rejection :
    (∀ (ctx : Make.Ctx) (seed : Nat) (v : Make.Valid) (receive amount : Nat),
        Make.validate ctx seed = .ok v → ctx.mint_a.key = ctx.mint_b.key →
        receive ≠ 0 → amount ≠ 0 →
        Make.run ctx seed receive amount = .error .InvalidMintA)
    ∧ (∀ (ctx : Make.Ctx) (seed receive amount : Nat) (r : Make.Result),
        Make.run ctx seed receive amount = .ok r →
        r.escrow.mint_a ≠ r.escrow.mint_b) := by
  constructor
  · intro ctx seed v receive amount hv hmints hrec hamt
    obtain ⟨hvc, _⟩ := make_validate_ok_spec ctx seed v hv
    simp only [Make.run, hv]
    unfold Make.handler
    rw [if_neg hrec, if_neg hamt, hvc, if_pos hmints]
  · intro ctx seed receive amount r h
    obtain ⟨v, hv, hh⟩ := make_run_ok_elim ctx seed receive amount r h
    obtain ⟨_, _, hmint, _, _, hesc, _⟩ :=
      make_handler_ok_spec v seed receive amount r hh
    rw [hesc]
    exact hmint

/-- Witness for C6 amended: with positive amounts the equal-mints Create
fails with `InvalidMintA`, and the successful example Create records two
distinct mints. -/
theorem make_equal_mints_rejection_witness :
    makeCtxABEx.mint_a.key = makeCtxABEx.mint_b.key
    ∧ Make.run makeCtxABEx 1 100 5 = .error .InvalidMintA
    ∧ Make.run makeCtxEx 1 100 50 = .ok makeResEx
    ∧ makeResEx.escrow.mint_a ≠ makeResEx.escrow.mint_b :=
  ⟨rfl,
   make_equal_mints_rejection.1 makeCtxABEx 1 makeValidABEx 100 5 rfl rfl
     (by decide) (by decide),
   rfl,
   make_equal_mints_rejection.2 makeCtxEx 1 100 50 makeResEx rfl⟩

/-- C7: The escrow record's address is derived from the fixed namespace tag
"escrow", the maker identity and the seed (with the runtime-found bump that
is stored as authority_tag), and every vault transfer or closure in Fulfill
and Cancel is authorized by the signing capability reproduced from exactly
those stored derivation inputs — the PDA of ("escrow", stored maker, stored
seed, stored bump) — never by an external signer's key.  The take part
assumes the taker key is not the escrow PDA (a signer is never a
program-derived address). -/
theorem derived_authority_only :
    (∀ (ctx : Make.Ctx) (seed receive amount : Nat) (r : Make.Result),
        Make.run ctx seed receive amount = .ok r →
        r.escrow_addr = Pubkey.pda "escrow" ctx.maker seed ctx.escrow_bump
        ∧ r.escrow.maker = ctx.maker ∧ r.escrow.seed = seed
        ∧ r.escrow.bump = ctx.escrow_bump)
    ∧ (∀ (ctx : Take.Ctx) (r : Take.Result), Take.run ctx = .ok r →
        ctx.taker ≠ ctx.escrow_addr →
        (∀ mint src dst amt auth,
            Effect.transfer mint src dst amt auth ∈ r.trace →
            src = Take.vaultAddr ctx →
            auth = Pubkey.pda "escrow" ctx.escrow.maker ctx.escrow.seed
              ctx.escrow.bump)
        ∧ (∀ acct dest auth lam,
            Effect.closeToken acct dest auth lam ∈ r.trace →
            auth = Pubkey.pda "escrow" ctx.escrow.maker ctx.escrow.seed
              ctx.escrow.bump))
    ∧ (∀ (ctx : Refund.Ctx) (r : Refund.Result), Refund.run ctx = .ok r →
        (∀ mint src dst amt auth,
            Effect.transfer mint src dst amt auth ∈ r.trace →
            src = Refund.vaultAddr ctx →
            auth = Pubkey.pda "escrow" ctx.escrow.maker ctx.escrow.seed
              ctx.escrow.bump)
        ∧ (∀ acct dest auth lam,
            Effect.closeToken acct dest auth lam ∈ r.trace →
            auth = Pubkey.pda "escrow" ctx.escrow.maker ctx.escrow.seed
              ctx.escrow.bump)) := by
  refine ⟨?_, ?_, ?_⟩
  · intro ctx seed receive amount r h
    obtain ⟨v, hv, hh⟩ := make_run_ok_elim ctx seed receive amount r h
    obtain ⟨hvc, _⟩ := make_validate_ok_spec ctx seed v hv
    obtain ⟨_, _, _, _, haddr, hesc, _⟩ := make_handler_ok_spec v seed receive amount r hh
    refine ⟨?_, ?_, ?_, ?_⟩
    · rw [haddr, hvc]
      rfl
    · rw [hesc, hvc]
      rfl
    · rw [hesc, hvc]
      rfl
    · rw [hesc, hvc]
      rfl
  · intro ctx r h hpda
    obtain ⟨v, hv, hh⟩ := take_run_ok_elim ctx r h
    obtain ⟨hvc, _, hmk, _, _, _, _, _, _, _, _, _, _, _, _, _, htr⟩ :=
      take_validate_ok_spec ctx v hv
    obtain ⟨_, _, _, _, _, _, _, _, _, _, _, hrtr⟩ := take_handler_ok_spec v r hh
    have hsig : Take.signer_seeds v
        = Pubkey.pda "escrow" ctx.escrow.maker ctx.escrow.seed ctx.escrow.bump := by
      simp only [Take.signer_seeds, escrowPda, hvc, hmk]
    constructor
    · intro mint src dst amt auth hmem hsrc
      rw [hrtr, htr, hvc] at hmem
      simp only [List.mem_append, List.mem_cons, List.not_mem_nil, or_false] at hmem
      rcases hmem with (hmem | hmem) | hmem | hmem | hmem | hmem
      · exact absurd hmem (createEffects_no_transfer _ _ _ _ _ _ _ _ _)
      · exact absurd hmem (createEffects_no_transfer _ _ _ _ _ _ _ _ _)
      · injection hmem with hm hs hd ha hau
        subst hs
        simp only [Take.vaultAddr, ataAddr, Pubkey.ata.injEq] at hsrc
        exact absurd hsrc.1 hpda
      · injection hmem with hm hs hd ha hau
        rw [hau, hsig]
      · exact Effect.noConfusion hmem
      · exact Effect.noConfusion hmem
    · intro acct dest auth lam hmem
      rw [hrtr, htr, hvc] at hmem
      simp only [List.mem_append, List.mem_cons, List.not_mem_nil, or_false] at hmem
      rcases hmem with (hmem | hmem) | hmem | hmem | hmem | hmem
      · exact absurd hmem (createEffects_no_close _ _ _ _ _ _ _ _)
      · exact absurd hmem (createEffects_no_close _ _ _ _ _ _ _ _)
      · exact Effect.noConfusion hmem
      · exact Effect.noConfusion hmem
      · injection hmem with ha hd hau hl
        rw [hau, hsig]
      · exact Effect.noConfusion hmem
  · intro ctx r h
    obtain ⟨v, hv, hh⟩ := refund_run_ok_elim ctx r h
    obtain ⟨hvc, _, hmk, _, _, _, _, _, _, _, htr⟩ := refund_validate_ok_spec ctx v hv
    obtain ⟨_, _, _, _, _, _, _, hrtr⟩ := refund_handler_ok_spec v r hh
    have hsig : Refund.signer_seeds v
        = Pubkey.pda "escrow" ctx.escrow.maker ctx.escrow.seed ctx.escrow.bump := by
      simp only [Refund.signer_seeds, escrowPda, hvc, hmk]
    constructor
    · intro mint src dst amt auth hmem hsrc
      rw [hrtr, htr, hvc] at hmem
      simp only [List.mem_append, List.mem_cons, List.not_mem_nil, or_false] at hmem
      rcases hmem with hmem | hmem | hmem | hmem
      · exact absurd hmem (createEffects_no_transfer _ _ _ _ _ _ _ _ _)
      · injection hmem with hm hs hd ha hau
        rw [hau, hsig]
      · exact Effect.noConfusion hmem
      · exact Effect.noConfusion hmem
    · intro acct dest auth lam hmem
      rw [hrtr, htr, hvc] at hmem
      simp only [List.mem_append, List.mem_cons, List.not_mem_nil, or_false] at hmem
      rcases hmem with hmem | hmem | hmem | hmem
      · exact absurd hmem (createEffects_no_close _ _ _ _ _ _ _ _)
      · exact Effect.noConfusion hmem
      · injection hmem with ha hd hau hl
        rw [hau, hsig]
      · exact Effect.noConfusion hmem

/-- Witness for C7: the example Create derives the record address from
("escrow", maker, seed, bump), and the vault closures of the example Fulfill
and Cancel are both authorized by the PDA reproduced from the record's
stored fields. -/
theorem derived_authority_only_witness :
    (makeResEx.escrow_addr
        = Pubkey.pda "escrow" makeCtxEx.maker 1 makeCtxEx.escrow_bump
     ∧ makeResEx.escrow.maker = makeCtxEx.maker
     ∧ makeResEx.escrow.seed = 1
     ∧ makeResEx.escrow.bump = makeCtxEx.escrow_bump)
    ∧ escrowAddrEx = Pubkey.pda "escrow" takeCtxEx.escrow.maker
        takeCtxEx.escrow.seed takeCtxEx.escrow.bump
    ∧ escrowAddrEx = Pubkey.pda "escrow" refundCtxEx.escrow.maker
        refundCtxEx.escrow.seed refundCtxEx.escrow.bump :=
  ⟨derived_authority_only.1 makeCtxEx 1 100 50 makeResEx rfl,
   (derived_authority_only.2.1 takeCtxEx takeResEx rfl (by decide)).2
     (ataAddr escrowAddrEx tpKey (.ext 10)) makerKey escrowAddrEx 3 (by decide),
   (derived_authority_only.2.2 refundCtxEx refundResEx rfl).2
     (ataAddr escrowAddrEx tpKey (.ext 10)) makerKey escrowAddrEx 3 (by decide)⟩

/-- C8: After Create populates the escrow record, no field of the record is
ever modified: in every successful Fulfill or Cancel the record content at
the moment of its closure is exactly the content the instruction started
from, and the record is destroyed. -/
theorem record_immutable_until_close :
    (∀ (ctx : Take.Ctx) (r : Take.Result), Take.run ctx = .ok r →
        r.escrow_data = ctx.escrow ∧ r.escrow_closed = true)
    ∧ (∀ (ctx : Refund.Ctx) (r : Refund.Result), Refund.run ctx = .ok r →
        r.escrow_data = ctx.escrow ∧ r.escrow_closed = true) := by
  constructor
  · intro ctx r h
    obtain ⟨v, hv, hh⟩ := take_run_ok_elim ctx r h
    obtain ⟨hvc, _⟩ := take_validate_ok_spec ctx v hv
    obtain ⟨_, _, _, _, _, _, _, hed, hecl, _, _, _⟩ := take_handler_ok_spec v r hh
    exact ⟨by rw [hed, hvc], hecl⟩
  · intro ctx r h
    obtain ⟨v, hv, hh⟩ := refund_run_ok_elim ctx r h
    obtain ⟨hvc, _⟩ := refund_validate_ok_spec ctx v hv
    obtain ⟨_, _, _, _, hed, hecl, _, _⟩ := refund_handler_ok_spec v r hh
    exact ⟨by rw [hed, hvc], hecl⟩

/-- Witness for C8: the example Fulfill and Cancel both close the record
with its fields unchanged. -/
theorem record_immutable_until_close_witness :
    (takeResEx.escrow_data = takeCtxEx.escrow ∧ takeResEx.escrow_closed = true)
    ∧ (refundResEx.escrow_data = refundCtxEx.escrow
       ∧ refundResEx.escrow_closed = true) :=
  ⟨record_immutable_until_close.1 takeCtxEx takeResEx rfl,
   record_immutable_until_close.2 refundCtxEx refundResEx rfl⟩

/-- C9: In Fulfill (take), absent destination accounts (the taker's asset_a
account and the maker's asset_b account) are created during the transition
with the taker as payer: the taker's lamports decrease by exactly the rent
of the accounts created, the maker's lamports only grow (by the vault and
record closures), and each created account's creation effect names the taker
as payer. -/
theorem take_payer_is_taker (ctx : Take.Ctx) (r : Take.Result)
    (h : Take.run ctx = .ok r) :
    r.taker_lamports + createCost ctx.ata_rent ctx.taker_ata_a
      + createCost ctx.ata_rent ctx.maker_ata_b = ctx.taker_lamports
    ∧ r.maker_lamports
        = ctx.maker_lamports + ctx.vault_lamports + ctx.escrow_lamports
    ∧ (ctx.taker_ata_a = none →
        Effect.createAta (ataAddr ctx.taker ctx.token_program ctx.mint_a.key)
          ctx.taker ctx.ata_rent ∈ r.trace)
    ∧ (ctx.maker_ata_b = none →
        Effect.createAta (ataAddr ctx.maker ctx.token_program ctx.mint_b.key)
          ctx.taker ctx.ata_rent ∈ r.trace) := by
  obtain ⟨v, hv, hh⟩ := take_run_ok_elim ctx r h
  obtain ⟨hvc, _, _, _, _, _, _, _, _, _, _, _, _, _, _, hlam, htr⟩ :=
    take_validate_ok_spec ctx v hv
  obtain ⟨_, _, _, _, _, _, _, _, _, htl, hml, hrtr⟩ := take_handler_ok_spec v r hh
  refine ⟨?_, ?_, ?_, ?_⟩
  · rw [htl]
    exact hlam
  · rw [hml, hvc]
  · intro hnone
    rw [hrtr, htr, hnone]
    simp [createEffects, List.mem_append]
  · intro hnone
    rw [hrtr, htr, hnone]
    simp [createEffects, List.mem_append]

/-- Witness for C9: in the example Fulfill both destination accounts are
absent; the taker pays 2 + 2 lamports of rent and the maker pays nothing. -/
theorem take_payer_is_taker_witness :
    Take.run takeCtxEx = .ok takeResEx
    ∧ takeResEx.taker_lamports
        + createCost takeCtxEx.ata_rent takeCtxEx.taker_ata_a
        + createCost takeCtxEx.ata_rent takeCtxEx.maker_ata_b
        = takeCtxEx.taker_lamports
    ∧ takeResEx.maker_lamports = takeCtxEx.maker_lamports
        + takeCtxEx.vault_lamports + takeCtxEx.escrow_lamports
    ∧ Effect.createAta
        (ataAddr takeCtxEx.taker takeCtxEx.token_program takeCtxEx.mint_a.key)
        takeCtxEx.taker takeCtxEx.ata_rent ∈ takeResEx.trace
    ∧ Effect.createAta
        (ataAddr takeCtxEx.maker takeCtxEx.token_program takeCtxEx.mint_b.key)
        takeCtxEx.taker takeCtxEx.ata_rent ∈ takeResEx.trace :=
  let h := take_payer_is_taker takeCtxEx takeResEx rfl
  ⟨rfl, h.1, h.2.1, h.2.2.1 rfl, h.2.2.2 rfl⟩

/-- C10: Create requires both mints to be owned by the single token program
supplied with the request: if the two mints are owned by two different token
programs, no Create can succeed, and (when the stages before the mint checks
pass: the record address is fresh and the maker can pay its rent) the
failure is the `mint::token_program` constraint error, raised before any
state change. -/
theorem make_mixed_token_programs_rejected :
    (∀ (ctx : Make.Ctx) (seed receive amount : Nat) (r : Make.Result),
        ctx.mint_a.owner ≠ ctx.mint_b.owner →
        Make.run ctx seed receive amount ≠ .ok r)
    ∧ (∀ (ctx : Make.Ctx) (seed receive amount : Nat),
        ctx.mint_a.owner ≠ ctx.mint_b.owner → ctx.escrow_fresh = true →
        ctx.escrow_rent ≤ ctx.maker_lamports →
        Make.run ctx seed receive amount
          = .error .ConstraintMintTokenProgram) := by
  constructor
  · intro ctx seed receive amount r hne h
    obtain ⟨v, hv, _⟩ := make_run_ok_elim ctx seed receive amount r h
    obtain ⟨_, _, _, hma, hmb, _⟩ := make_validate_ok_spec ctx seed v hv
    exact hne (hma.trans hmb.symm)
  · intro ctx seed receive amount hne hfresh hrent
    apply make_run_error_of_validate_error
    unfold Make.validate
    rw [if_neg (show ¬(!ctx.escrow_fresh) = true by simp [hfresh]),
      if_neg (by omega : ¬ctx.maker_lamports < ctx.escrow_rent)]
    by_cases hA : ctx.mint_a.owner = ctx.token_program
    · rw [if_neg (not_not_intro hA),
        if_pos (show ctx.mint_b.owner ≠ ctx.token_program from
          fun hB => hne (hA.trans hB.symm))]
    · rw [if_pos hA]

/-- Witness for C10: a Create naming one mint owned by `ext 100` and one
owned by `ext 101` is rejected with the token-program constraint error. -/
theorem make_mixed_token_programs_rejected_witness :
    makeCtxMixedEx.mint_a.owner ≠ makeCtxMixedEx.mint_b.owner
    ∧ Make.run makeCtxMixedEx 1 100 50 ≠ .ok makeResEx
    ∧ makeCtxMixedEx.escrow_fresh = true
    ∧ makeCtxMixedEx.escrow_rent ≤ makeCtxMixedEx.maker_lamports
    ∧ Make.run makeCtxMixedEx 1 100 50 = .error .ConstraintMintTokenProgram :=
  ⟨by decide,
   make_mixed_token_programs_rejected.1 makeCtxMixedEx 1 100 50 makeResEx
     (by decide),
   rfl, by decide,
   make_mixed_token_programs_rejected.2 makeCtxMixedEx 1 100 50 (by decide) rfl
     (by decide)⟩

end BlueshiftEscrow
